import Mathlib

/-!
Verification of the process supervisor in `src/services/process/ProcessManager.ts`
(claude-mem). The TypeScript class is shallowly embedded as pure Lean functions
over an explicit system state. Conventions of the embedding:

* Filesystem files are fields of `SysState` (`lockFile` for `worker.lock`,
  `pidFile` for `worker.pid`); `none` means the file is absent. Writing and
  unlinking are modelled as succeeding (filesystem errors that the source
  swallows in `catch` blocks are not modelled).
* OS process liveness (`process.kill(pid, 0)`) is the Boolean map `alive`;
  `process.kill` on a dead pid throws `ESRCH`, modelled as "throws iff the
  target is not alive".
* `Date.now()` is the `now` field; it is held fixed within one call and the
  environment may move it between calls. ISO-8601 timestamp strings
  (`toISOString` / `new Date(s).getTime()`) are modelled abstractly as the
  decimal string of the millisecond value.
* Asynchronous waiting (health polling, lock retry, exit wait) is modelled by
  oracle functions supplied in environment records (`StartEnv`, `StopEnv`,
  probe sequences), one entry per iteration of the corresponding source loop.
-/

/-- Timeout constants from the top of ProcessManager.ts. -/
def PROCESS_STOP_TIMEOUT_MS : Int := 5000

def HEALTH_CHECK_TIMEOUT_MS : Nat := 10000

def HEALTH_CHECK_INTERVAL_MS : Nat := 200

def HEALTH_CHECK_FETCH_TIMEOUT_MS : Nat := 1000

def LOCK_STALE_TIMEOUT_MS : Int := 30000

def LOCK_MAX_RETRIES : Nat := 50

/-- `LockInfo` record stored in `worker.lock`: `{pid, timestamp}`. -/
structure LockInfo where
  pid : Int
  timestamp : Int
deriving Repr, DecidableEq

/-- Content of the lock file: a parsable `LockInfo` JSON object, or corrupt
content on which `JSON.parse` throws. -/
inductive LockContent
  | valid (info : LockInfo)
  | corrupt
deriving Repr, DecidableEq

/-- A JSON field value as seen by `typeof` checks: a number, a string, or
anything else (null, boolean, object, array, or a missing property). -/
inductive JField
  | num (n : Int)
  | str (s : String)
  | other
deriving Repr, DecidableEq

/-- The four properties of the object parsed from `worker.pid`, each with
whatever runtime type the file happened to contain. -/
structure RawPidRecord where
  pid : JField
  port : JField
  startedAt : JField
  version : JField
deriving Repr, DecidableEq

/-- Content of the pid file: a JSON object, or content on which `JSON.parse`
throws. -/
inductive PidFileContent
  | record (r : RawPidRecord)
  | unparsable
deriving Repr, DecidableEq

/-- `PidInfo` as returned by `getPidInfo` after its `typeof` validation: `pid`
and `port` are known to be numbers; `startedAt` and `version` are returned
as parsed, whatever their runtime type. -/
structure PidInfo where
  pid : Int
  port : Int
  startedAt : JField
  version : JField
deriving Repr, DecidableEq

/-- `LaunchResult`: `{success: bool, pid?: number, error?: string}`. -/
structure LaunchResult where
  success : Bool
  pid : Option Int
  error : Option String
deriving Repr, DecidableEq

/-- The system state a ProcessManager call runs against: the two files, the
OS liveness map, the clock, the calling process's own pid, and the platform. -/
structure SysState where
  lockFile : Option LockContent
  pidFile : Option PidFileContent
  alive : Int → Bool
  now : Int
  selfPid : Int
  isWin : Bool

/-- `isProcessAlive`: `process.kill(pid, 0)` succeeds iff the pid is alive. -/
def isProcessAlive (s : SysState) (pid : Int) : Bool :=
  s.alive pid

/-- `getPidInfo`: read `worker.pid`; `null` on a missing file, on unparsable
content, or when `typeof parsed.pid` / `typeof parsed.port` is not `number`.
Total (never raises): every exception is caught and turned into `null`. -/
def getPidInfo (s : SysState) : Option PidInfo :=
  match s.pidFile with
  | none => none
  | some PidFileContent.unparsable => none
  | some (PidFileContent.record r) =>
    match r.pid, r.port with
    | JField.num p, JField.num q =>
      some { pid := p, port := q, startedAt := r.startedAt, version := r.version }
    | _, _ => none

/-- `writePidFile`: serialise a `PidInfo` into `worker.pid`. -/
def writePidFile (s : SysState) (pid port : Int) (startedAt version : String) : SysState :=
  { s with pidFile := some (PidFileContent.record
      { pid := JField.num pid, port := JField.num port,
        startedAt := JField.str startedAt, version := JField.str version }) }

/-- `removePidFile`: unlink `worker.pid` (errors ignored). -/
def removePidFile (s : SysState) : SysState :=
  { s with pidFile := none }

/-- `cleanStaleLock`: remove `worker.lock` when the token is older than
`LOCK_STALE_TIMEOUT_MS`, or (otherwise) when the owner pid is not alive, or
when the file content is unparsable. The age test runs before the liveness
test and returns early. -/
def cleanStaleLock (s : SysState) : SysState :=
  match s.lockFile with
  | none => s
  | some LockContent.corrupt => { s with lockFile := none }
  | some (LockContent.valid info) =>
    if s.now - info.timestamp > LOCK_STALE_TIMEOUT_MS then
      { s with lockFile := none }
    else if s.alive info.pid then
      s
    else
      { s with lockFile := none }

/-- `tryAcquireLock`: run `cleanStaleLock`, then atomically create the lock
file with `O_CREAT \x7c O_EXCL` and write `{pid: process.pid, timestamp: Date.now()}`;
the create fails (returns `false`) iff a lock file still exists. -/
def tryAcquireLock (s : SysState) : Bool × SysState :=
  let s1 := cleanStaleLock s
  match s1.lockFile with
  | none =>
    (true, { s1 with lockFile := some (LockContent.valid
        { pid := s1.selfPid, timestamp := s1.now }) })
  | some _ => (false, s1)

/-- `releaseLock`: read the lock file and unlink it only when the recorded
owner pid equals `process.pid`; a missing or unparsable file, or a token
owned by another pid, leaves everything untouched. -/
def releaseLock (s : SysState) : SysState :=
  match s.lockFile with
  | some (LockContent.valid info) =>
    if info.pid = s.selfPid then { s with lockFile := none } else s
  | _ => s

/-- `isRunning`: read `worker.pid`; no record means not running; with a
record, probe the pid, removing the stale pid file when it is dead. -/
def isRunningOp (s : SysState) : Bool × SysState :=
  match getPidInfo s with
  | none => (false, s)
  | some info =>
    if isProcessAlive s info.pid then (true, s)
    else (false, removePidFile s)

/-- `new Date(startedAt).getTime()` for a loosely-typed `startedAt` field:
a number is its own millisecond value, an ISO string is decoded (modelled as
a decimal string of the millisecond value). -/
def dateMs : JField → Int
  | JField.num n => n
  | JField.str d => Int.ofNat ((d.toNat?).getD 0)
  | JField.other => 0

/-- `formatUptime`: bucket `now - startedAt` into days/hours/minutes/seconds
exactly as the source does (floored division). -/
def formatUptime (startMs now : Int) : String :=
  let diffMs := now - startMs
  let seconds := Int.fdiv diffMs 1000
  let minutes := Int.fdiv seconds 60
  let hours := Int.fdiv minutes 60
  let days := Int.fdiv hours 24
  if days > 0 then s!"{days}d {hours % 24}h"
  else if hours > 0 then s!"{hours}h {minutes % 60}m"
  else if minutes > 0 then s!"{minutes}m {seconds % 60}s"
  else s!"{seconds}s"

/-- Result object of `status()`. -/
structure StatusResult where
  running : Bool
  pid : Option Int
  port : Option Int
  uptime : Option String
deriving Repr, DecidableEq

/-- `status`: read `worker.pid`; absent means not running; otherwise probe the
pid and report `running` with pid/port/uptime only when alive. The state is
returned unchanged: `status` performs no write or unlink. -/
def status (s : SysState) : StatusResult × SysState :=
  match getPidInfo s with
  | none => ({ running := false, pid := none, port := none, uptime := none }, s)
  | some info =>
    let r := isProcessAlive s info.pid
    ({ running := r,
       pid := if r then some info.pid else none,
       port := if r then some info.port else none,
       uptime := if r then some (formatUptime (dateMs info.startedAt) s.now) else none }, s)

/-! ## Health prober -/

/-- Outcome of one `fetch` of `/api/readiness`: a 2xx response (`response.ok`),
a non-2xx response, or a thrown network error (connection refused, or the
`AbortSignal.timeout(1000)` per-attempt timeout). -/
inductive FetchOutcome
  | ok
  | notOk
  | netError
deriving Repr, DecidableEq

/-- What the world shows one iteration of the `waitForHealth` loop: the
liveness-probe result, the fetch outcome, and the milliseconds the fetch
attempt consumed (bounded by 1000 in reality; unconstrained here). -/
structure ProbeStep where
  alive : Bool
  fetch : FetchOutcome
  fetchMs : Nat
deriving Repr, DecidableEq

/-- Error message for a process that died during startup. The Unix message is
a fixed string; the Windows variant appends troubleshooting guidance naming
the port. (Quotation marks around process names in the source text are
omitted here; no claim inspects them.) -/
def deadMsg (isWin : Bool) (port : Int) : String :=
  if isWin then
    s!"Process died during startup\n\nTroubleshooting:\n1. Check Task Manager for zombie bun.exe or node.exe processes\n2. Verify port {port} is not in use: netstat -ano | findstr {port}\n3. Check worker logs in ~/.claude-mem/logs/\n4. See GitHub issues: #363, #367, #371, #373\n5. Docs: https://docs.claude-mem.ai/troubleshooting/windows-issues"
  else
    "Process died during startup"

/-- Error message when the readiness deadline elapses, parameterised by the
adjusted timeout that the source interpolates into it. -/
def timeoutMsg (isWin : Bool) (port : Int) (t : Nat) : String :=
  if isWin then
    s!"Worker failed to start on Windows (readiness check timed out after {t}ms)\n\nTroubleshooting:\n1. Check Task Manager for zombie bun.exe or node.exe processes\n2. Verify port {port} is not in use: netstat -ano | findstr {port}\n3. Check worker logs in ~/.claude-mem/logs/\n4. See GitHub issues: #363, #367, #371, #373\n5. Docs: https://docs.claude-mem.ai/troubleshooting/windows-issues"
  else
    s!"Readiness check timed out after {t}ms"

/-- `const adjustedTimeout = isWindows ? timeoutMs * 2 : timeoutMs`. -/
def adjustedTimeout (isWin : Bool) (timeoutMs : Nat) : Nat :=
  if isWin then timeoutMs * 2 else timeoutMs

/-- The `while (Date.now() - startTime < adjustedTimeout)` loop of
`waitForHealth`. `elapsed` is `Date.now() - startTime` at the top of the
iteration, `n` indexes the probe oracle, and each continuing iteration adds
the fetch duration plus the 200ms sleep. Also returns how many loop-body
iterations ran, for the termination bound. -/
def waitLoop (isWin : Bool) (env : Nat → ProbeStep) (pid port : Int) (T : Nat)
    (elapsed : Nat) (n : Nat) : LaunchResult × Nat :=
  if h : elapsed < T then
    let st := env n
    if st.alive = false then
      ({ success := false, pid := none, error := some (deadMsg isWin port) }, 1)
    else if st.fetch = FetchOutcome.ok then
      ({ success := true, pid := some pid, error := none }, 1)
    else
      let r := waitLoop isWin env pid port T (elapsed + st.fetchMs + HEALTH_CHECK_INTERVAL_MS) (n + 1)
      (r.1, r.2 + 1)
  else
    ({ success := false, pid := none, error := some (timeoutMsg isWin port T) }, 0)
termination_by T - elapsed
decreasing_by simp_wf; simp only [HEALTH_CHECK_INTERVAL_MS]; omega

/-- `waitForHealth(pid, port, timeoutMs)`: double the deadline on Windows,
then poll until death, readiness, or the deadline. -/
def waitForHealth (isWin : Bool) (env : Nat → ProbeStep) (pid port : Int)
    (timeoutMs : Nat) : LaunchResult :=
  (waitLoop isWin env pid port (adjustedTimeout isWin timeoutMs) 0 0).1

/-- Elapsed milliseconds accumulated by the first `k` continuing iterations of
the health loop starting at oracle index `n0`. -/
def elapsedAt (env : Nat → ProbeStep) (n0 : Nat) : Nat → Nat
  | 0 => 0
  | k + 1 => (env n0).fetchMs + HEALTH_CHECK_INTERVAL_MS + elapsedAt env (n0 + 1) k

/-! ## start -/

/-- Outcome of the platform spawn inside `startWithBun`: the spawn produced a
real worker pid; it produced no usable pid (undefined `child.pid` on Unix, a
non-numeric PowerShell answer on Windows); the Windows PowerShell invocation
exited non-zero with some stderr text; or some call in the `try` block threw. -/
inductive SpawnOutcome
  | ok (pid : Int)
  | noPid
  | psFail (stderr : String)
  | raised (msg : String)
deriving Repr, DecidableEq

/-- Environment of one `start` call: what the outside world does during each
sleep of the lock-retry loop (`interfere i` runs after failed attempt `i`),
what it does during the one `HEALTH_CHECK_TIMEOUT_MS` wait on the
lock-contention fallback path, whether the worker script file exists, whether
`getBunPath()` finds Bun, the spawn outcome, the health-probe oracle, and the
`npm_package_version` string written into the pid file. -/
structure StartEnv where
  interfere : Nat → SysState → SysState
  afterWait : SysState → SysState
  scriptExists : Bool
  bunAvailable : Bool
  spawn : SpawnOutcome
  probes : Nat → ProbeStep
  versionStr : String

/-- The lock-retry loop of `acquireLockWithRetry`: up to `LOCK_MAX_RETRIES`
attempts, sleeping (during which `interfere` acts) after each failure. -/
def acquireLockRetryAux (interfere : Nat → SysState → SysState) :
    Nat → Nat → SysState → Bool × SysState
  | 0, _, s => (false, s)
  | fuel + 1, i, s =>
    let p := tryAcquireLock s
    if p.1 then (true, p.2)
    else acquireLockRetryAux interfere fuel (i + 1) (interfere i p.2)

/-- `acquireLockWithRetry`: poll `tryAcquireLock` with a fixed 100ms interval,
giving up after `LOCK_MAX_RETRIES` attempts. -/
def acquireLockWithRetry (interfere : Nat → SysState → SysState) (s : SysState) :
    Bool × SysState :=
  acquireLockRetryAux interfere LOCK_MAX_RETRIES 0 s

/-- The idempotent-success result: `{ success: true, pid: info?.pid }` where
`info` is a fresh `getPidInfo()` read. -/
def runningResult (s : SysState) : LaunchResult :=
  { success := true, pid := (getPidInfo s).map PidInfo.pid, error := none }

/-- `{ success: false, error: "Invalid port ..." }`. -/
def invalidPortResult (port : Int) : LaunchResult :=
  { success := false, pid := none,
    error := some s!"Invalid port {port}. Must be between 1024 and 65535" }

/-- `{ success: false, error: "Failed to acquire startup lock ..." }`. -/
def lockFailResult : LaunchResult :=
  { success := false, pid := none,
    error := some "Failed to acquire startup lock and worker not running" }

/-- The worker script name chosen by platform (`worker-wrapper.cjs` behind a
hidden-window wrapper on Windows, `worker-service.cjs` on Unix). -/
def workerScriptName (isWin : Bool) : String :=
  if isWin then "worker-wrapper.cjs" else "worker-service.cjs"

/-- `{ success: false, error: "Worker script not found at ..." }`. The
marketplace root path prefix is abbreviated to the script name. -/
def scriptMissingResult (isWin : Bool) : LaunchResult :=
  { success := false, pid := none,
    error := some s!"Worker script not found at {workerScriptName isWin}" }

/-- `{ success: false, error: "Bun is required but not found ..." }`. -/
def bunMissingResult : LaunchResult :=
  { success := false, pid := none,
    error := some "Bun is required but not found in PATH or common installation paths. Install from https://bun.sh" }

/-- Error for a spawn that yielded no usable pid, per platform. -/
def noPidResult (isWin : Bool) : LaunchResult :=
  { success := false, pid := none,
    error := some (if isWin then "Failed to get PID from PowerShell"
                   else "Failed to get PID from spawned process") }

/-- `startWithBun(script, logFile, port)`: fail fast when Bun is missing;
otherwise spawn (PowerShell `Start-Process` on Windows, detached `spawn` on
Unix), and on a usable child pid write the pid file `{pid, port, startedAt:
toISOString(now), version}` and delegate to `waitForHealth` with the default
deadline; any exception in the `try` becomes a failure result. -/
def startWithBun (env : StartEnv) (s : SysState) (port : Int) :
    LaunchResult × SysState :=
  if env.bunAvailable = false then (bunMissingResult, s)
  else
    match env.spawn with
    | SpawnOutcome.raised msg =>
      ({ success := false, pid := none, error := some msg }, s)
    | SpawnOutcome.psFail stderr =>
      ({ success := false, pid := none, error := some s!"PowerShell spawn failed: {stderr}" }, s)
    | SpawnOutcome.noPid => (noPidResult s.isWin, s)
    | SpawnOutcome.ok cpid =>
      let s1 := writePidFile s cpid port (toString s.now) env.versionStr
      (waitForHealth s.isWin env.probes cpid port HEALTH_CHECK_TIMEOUT_MS, s1)

/-- Body of the `try` block of `start` once the lock is held: re-check
liveness (a peer may have finished first), check the worker script exists,
then launch. -/
def startLocked (env : StartEnv) (s : SysState) (port : Int) :
    LaunchResult × SysState :=
  let p := isRunningOp s
  if p.1 then (runningResult p.2, p.2)
  else if env.scriptExists = false then (scriptMissingResult p.2.isWin, p.2)
  else startWithBun env p.2 port

/-- `start(port)`: validate the port; return the existing pid when already
running; acquire the startup lock with retry, and on contention wait one
health-timeout window and re-check liveness; with the lock held run
`startLocked`, then release the lock unconditionally (`finally`). -/
def start (env : StartEnv) (s : SysState) (port : Int) : LaunchResult × SysState :=
  if port < 1024 ∨ port > 65535 then (invalidPortResult port, s)
  else
    let p1 := isRunningOp s
    if p1.1 then (runningResult p1.2, p1.2)
    else
      let p2 := acquireLockWithRetry env.interfere p1.2
      if p2.1 = false then
        let s3 := env.afterWait p2.2
        let p4 := isRunningOp s3
        if p4.1 then (runningResult p4.2, p4.2)
        else (lockFailResult, p4.2)
      else
        let p3 := startLocked env p2.2 port
        (p3.1, releaseLock p3.2)

/-! ## stop -/

/-- Which kill the supervisor sends: `taskkill /PID pid /T /F` (Windows
process tree), `SIGTERM`, or `SIGKILL`. -/
inductive KillSig
  | tree
  | term
  | kill
deriving Repr, DecidableEq

/-- Environment of one `stop` call: the effect each kill has on the OS
liveness map. A `SIGTERM` whose effect leaves the pid alive models a worker
that ignored the signal for the whole `waitForExit` window. -/
structure StopEnv where
  killEffect : KillSig → Int → (Int → Bool) → (Int → Bool)

/-- `stop(timeout)`: no pid record means already stopped (no-op success).
On Windows, `taskkill /T /F` inside its own swallow-all `try`.
On Unix, `process.kill(pid, SIGTERM)` (which throws `ESRCH` when the pid is
already dead, landing in the `catch` where `SIGKILL` also throws and is
swallowed); then `waitForExit` polls liveness and throws on timeout, in which
case the `catch` sends `SIGKILL`. The pid file is removed afterwards on every
path, and the return value is always `true`. -/
def stop (env : StopEnv) (s : SysState) (timeout : Int) : Bool × SysState :=
  match getPidInfo s with
  | none => (true, s)
  | some info =>
    let s1 :=
      if s.isWin then
        { s with alive := env.killEffect KillSig.tree info.pid s.alive }
      else
        if s.alive info.pid = false then
          s
        else
          let a1 := env.killEffect KillSig.term info.pid s.alive
          if a1 info.pid then
            { s with alive := env.killEffect KillSig.kill info.pid a1 }
          else
            { s with alive := a1 }
    (true, removePidFile s1)

/-! ## String containment (used to state that a diagnostic names a pid) -/

/-- `needle` occurs at the start of `hay`. -/
def charsStartWith : List Char → List Char → Bool
  | [], _ => true
  | _ :: _, [] => false
  | a :: as, b :: bs => a == b && charsStartWith as bs

/-- `needle` occurs somewhere in `hay`. -/
def charsContain (needle : List Char) : List Char → Bool
  | [] => charsStartWith needle []
  | b :: bs => charsStartWith needle (b :: bs) || charsContain needle bs

/-- A string mentions another (e.g. a message names a pid) iff the latter is
a substring of the former. -/
def strMentions (hay needle : String) : Bool :=
  charsContain needle.toList hay.toList

/-! ## Concrete example states used by witnesses and counterexamples -/

/-- A well-formed pid-file record: worker pid 7 on port 8080. -/
def egRecord : RawPidRecord :=
  { pid := JField.num 7, port := JField.num 8080,
    startedAt := JField.str "1000", version := JField.str "1.0" }

/-- A state whose pid file records worker 7 and whose pids are all alive. -/
def egState : SysState :=
  { lockFile := none, pidFile := some (PidFileContent.record egRecord),
    alive := fun _ => true, now := 2000, selfPid := 1, isWin := false }

/-- The same state with every pid dead (worker 7 was killed externally). -/
def deadState : SysState :=
  { lockFile := none, pidFile := some (PidFileContent.record egRecord),
    alive := fun _ => false, now := 2000, selfPid := 1, isWin := false }

/-- A state with no files at all, caller pid 42. -/
def bareState : SysState :=
  { lockFile := none, pidFile := none,
    alive := fun _ => true, now := 1000, selfPid := 42, isWin := false }

/-- A start environment in which the outside world stays quiet and every
launch resource is missing. -/
def idleEnv : StartEnv :=
  { interfere := fun _ s => s, afterWait := fun s => s,
    scriptExists := false, bunAvailable := false,
    spawn := SpawnOutcome.noPid,
    probes := fun _ => { alive := true, fetch := FetchOutcome.netError, fetchMs := 0 },
    versionStr := "unknown" }

/-- A stop environment whose kills have no effect on liveness. -/
def inertStopEnv : StopEnv :=
  { killEffect := fun _ _ a => a }

/-- A `LaunchResult` that is not partially populated: success carries a pid,
failure carries an error message. -/
def wellFormedLR (r : LaunchResult) : Prop :=
  (r.success = true → (r.pid).isSome = true) ∧
  (r.success = false → (r.error).isSome = true)

/-! ## Theorems -/

/-- Helper: when `isRunning` answers `true`, the pid file it leaves behind
still parses to a record (so a following `getPidInfo()` read is `some`). -/
theorem isRunningOp_true_getPidInfo (s : SysState)
    (h : (isRunningOp s).1 = true) :
    (getPidInfo (isRunningOp s).2).isSome = true := by
  cases hg : getPidInfo s with
  | none => simp [isRunningOp, hg] at h
  | some info =>
    by_cases ha : isProcessAlive s info.pid = true
    · simp [isRunningOp, hg, ha]
    · simp [isRunningOp, hg, ha] at h

/-- C2: starting with no lock file, two sequential `tryAcquire` calls by the
same (alive) caller yield `true` then `false`; the first creates the caller's
token, which the second finds valid, non-stale and owned by a live process. -/
theorem C2_tryAcquire_exclusive (s : SysState)
    (hlock : s.lockFile = none) (halive : s.alive s.selfPid = true) :
    (tryAcquireLock s).1 = true ∧
    (tryAcquireLock s).2.lockFile =
      some (LockContent.valid { pid := s.selfPid, timestamp := s.now }) ∧
    (tryAcquireLock (tryAcquireLock s).2).1 = false := by
  have h1 : cleanStaleLock s = s := by
    unfold cleanStaleLock; rw [hlock]
  have h2 : tryAcquireLock s =
      (true, { s with lockFile := some (LockContent.valid
        { pid := s.selfPid, timestamp := s.now }) }) := by
    unfold tryAcquireLock
    simp only [h1, hlock]
  refine ⟨by rw [h2], by rw [h2], ?_⟩
  rw [h2]
  norm_num [tryAcquireLock, cleanStaleLock, LOCK_STALE_TIMEOUT_MS, halive]

/-- C2 witness: concrete run from the bare state. -/
theorem C2_witness :
    (tryAcquireLock bareState).1 = true ∧
    (tryAcquireLock bareState).2.lockFile =
      some (LockContent.valid { pid := 42, timestamp := 1000 }) ∧
    (tryAcquireLock (tryAcquireLock bareState).2).1 = false :=
  C2_tryAcquire_exclusive bareState rfl rfl

/-- C3: a token whose age exceeds the 30s stale threshold is reclaimed by a
different caller even though its owner pid is still alive: `tryAcquire`
removes the old token and installs the caller's own, returning `true`. -/
theorem C3_stale_reclaim (s : SysState) (p t : Int)
    (hlock : s.lockFile = some (LockContent.valid { pid := p, timestamp := t }))
    (hage : s.now - t > LOCK_STALE_TIMEOUT_MS)
    (halive : s.alive p = true) (hdiff : p ≠ s.selfPid) :
    (tryAcquireLock s).1 = true ∧
    (tryAcquireLock s).2.lockFile =
      some (LockContent.valid { pid := s.selfPid, timestamp := s.now }) := by
  have h1 : cleanStaleLock s = { s with lockFile := none } := by
    unfold cleanStaleLock
    rw [hlock]
    simp [hage]
  unfold tryAcquireLock
  simp [h1]

/-- C3 witness: pid 9 holds a 40s-old token, is still alive, and caller 42
reclaims the lock. -/
theorem C3_witness :
    (tryAcquireLock
      { lockFile := some (LockContent.valid { pid := 9, timestamp := 0 }),
        pidFile := none, alive := fun _ => true, now := 40000, selfPid := 42,
        isWin := false }).1 = true ∧
    (tryAcquireLock
      { lockFile := some (LockContent.valid { pid := 9, timestamp := 0 }),
        pidFile := none, alive := fun _ => true, now := 40000, selfPid := 42,
        isWin := false }).2.lockFile =
      some (LockContent.valid { pid := 42, timestamp := 40000 }) :=
  C3_stale_reclaim _ 9 0 rfl (by norm_num [LOCK_STALE_TIMEOUT_MS]) rfl (by decide)

/-- C4: with a valid lock token on file, `release()` by a caller other than
the recorded owner changes nothing at all, and `release()` by the recorded
owner removes the lock file. -/
theorem C4_release_owner_only (s : SysState) (info : LockInfo)
    (hlock : s.lockFile = some (LockContent.valid info)) :
    (info.pid ≠ s.selfPid → releaseLock s = s) ∧
    (info.pid = s.selfPid → (releaseLock s).lockFile = none) := by
  constructor
  · intro hne
    unfold releaseLock
    rw [hlock]
    simp [hne]
  · intro heq
    unfold releaseLock
    rw [hlock]
    simp [heq]

/-- C4 witness: caller 1 cannot release the token owned by pid 9; pid 9
itself can. -/
theorem C4_witness :
    releaseLock
      { lockFile := some (LockContent.valid { pid := 9, timestamp := 100 }),
        pidFile := none, alive := fun _ => true, now := 200, selfPid := 1, isWin := false } =
    { lockFile := some (LockContent.valid { pid := 9, timestamp := 100 }),
      pidFile := none, alive := fun _ => true, now := 200, selfPid := 1, isWin := false } ∧
    (releaseLock
      { lockFile := some (LockContent.valid { pid := 9, timestamp := 100 }),
        pidFile := none, alive := fun _ => true, now := 200, selfPid := 9,
        isWin := false }).lockFile = none :=
  ⟨(C4_release_owner_only _ { pid := 9, timestamp := 100 } rfl).1 (by decide),
   (C4_release_owner_only _ { pid := 9, timestamp := 100 } rfl).2 rfl⟩

/-- C10: `stop` returns `true` on every input: with no WorkerState, after a
graceful termination, after forced escalation, and even when every kill
attempt leaves the process alive. -/
theorem C10_stop_true (env : StopEnv) (s : SysState) (timeout : Int) :
    (stop env s timeout).1 = true := by
  unfold stop
  cases hg : getPidInfo s <;> simp

/-- C7: `stop` with no WorkerState is a no-op success, and with a WorkerState
present the record is removed afterwards on every termination path (the
quantification over `StopEnv` and `SysState` covers the Windows tree-kill,
the graceful SIGTERM path, the SIGKILL escalation after a wait timeout, and
kills that failed entirely). -/
theorem C7_stop_cleanup (env : StopEnv) (s : SysState) (timeout : Int) :
    (getPidInfo s = none → stop env s timeout = (true, s)) ∧
    (getPidInfo s ≠ none →
      (stop env s timeout).1 = true ∧ (stop env s timeout).2.pidFile = none) := by
  constructor
  · intro h
    unfold stop
    rw [h]
  · intro h
    cases hg : getPidInfo s with
    | none => exact absurd hg h
    | some info =>
      unfold stop
      rw [hg]
      refine ⟨rfl, ?_⟩
      simp [removePidFile]

/-- C7 witness: stopping with a pid record present returns `true` and removes
the record, here on the path where the worker ignores every signal. -/
theorem C7_witness :
    (stop inertStopEnv egState 5000).1 = true ∧
    (stop inertStopEnv egState 5000).2.pidFile = none :=
  (C7_stop_cleanup inertStopEnv egState 5000).2 (by decide)

/-- C8 counterexample: a pid file whose `startedAt` is a number and whose
`version` is not a string (wrong-typed fields of WorkerState) is not treated
as absent: `getPidInfo` returns the record, refuting the claim that any
wrong-typed field yields "absent". -/
theorem C8_counterexample :
    getPidInfo
      { lockFile := none,
        pidFile := some (PidFileContent.record
          { pid := JField.num 5, port := JField.num 6,
            startedAt := JField.num 42, version := JField.other }),
        alive := fun _ => true, now := 0, selfPid := 1, isWin := false } ≠ none ∧
    getPidInfo
      { lockFile := none,
        pidFile := some (PidFileContent.record
          { pid := JField.num 5, port := JField.num 6,
            startedAt := JField.num 42, version := JField.other }),
        alive := fun _ => true, now := 0, selfPid := 1, isWin := false } =
      some { pid := 5, port := 6, startedAt := JField.num 42, version := JField.other } :=
  ⟨by decide, rfl⟩

/-- C8 (amended): the read never raises — it is a total function into
`Option` — and returns "absent" exactly when the file is missing, the content
is unparsable, or the `pid` or `port` field is not a number; `startedAt` and
`version` are not type-checked, and an otherwise well-formed record is
returned as stored. -/
theorem C8_amended_read (s : SysState) :
    (s.pidFile = none → getPidInfo s = none) ∧
    (s.pidFile = some PidFileContent.unparsable → getPidInfo s = none) ∧
    (∀ r : RawPidRecord, s.pidFile = some (PidFileContent.record r) →
      (∀ p q : Int, r.pid = JField.num p → r.port = JField.num q →
        getPidInfo s =
          some { pid := p, port := q, startedAt := r.startedAt, version := r.version }) ∧
      (((∀ p : Int, r.pid ≠ JField.num p) ∨ (∀ q : Int, r.port ≠ JField.num q)) →
        getPidInfo s = none)) := by
  refine ⟨fun h => by simp [getPidInfo, h], fun h => by simp [getPidInfo, h], ?_⟩
  intro r hr
  constructor
  · intro p q hp hq
    simp [getPidInfo, hr, hp, hq]
  · intro hbad
    unfold getPidInfo
    rw [hr]
    rcases hp : r.pid with n | d | _ <;> rcases hq : r.port with m | e | _
    · exfalso
      rcases hbad with hb | hb
      · exact hb n hp
      · exact hb m hq
    all_goals simp [hp, hq]

/-- C8 witness: a missing file reads as absent, and a well-formed record
reads back exactly. -/
theorem C8_witness :
    getPidInfo bareState = none ∧
    getPidInfo egState =
      some { pid := 7, port := 8080,
             startedAt := JField.str "1000", version := JField.str "1.0" } :=
  ⟨(C8_amended_read bareState).1 rfl,
   ((C8_amended_read egState).2.2 egRecord rfl).1 7 8080 rfl rfl⟩

/-- C1 counterexample: with a stored WorkerState for pid 7 and every pid
dead, `status()` does report not-running, but it does NOT delete the stale
record — the pid file is returned unchanged, refuting the deletion half of
the claim. -/
theorem C1_counterexample :
    (status deadState).1.running = false ∧
    (status deadState).2.pidFile = some (PidFileContent.record egRecord) :=
  ⟨rfl, rfl⟩

/-- C1 (amended): for a stored WorkerState whose pid is dead, `status()`
reports not-running but leaves the record on disk unchanged — it is
`isRunning()`, not `status()`, that lazily deletes the stale record; for a
WorkerState whose pid is alive, `status()` reports running with that pid,
port, and an uptime derived from `started_at`. -/
theorem C1_amended_status (s : SysState) (info : PidInfo)
    (hinfo : getPidInfo s = some info) :
    (s.alive info.pid = false →
      (status s).1 = { running := false, pid := none, port := none, uptime := none } ∧
      (status s).2 = s ∧
      isRunningOp s = (false, removePidFile s)) ∧
    (s.alive info.pid = true →
      (status s).1 =
        { running := true, pid := some info.pid, port := some info.port,
          uptime := some (formatUptime (dateMs info.startedAt) s.now) } ∧
      (status s).2 = s) := by
  constructor
  · intro hdead
    unfold status isRunningOp isProcessAlive
    rw [hinfo]
    simp [hdead]
  · intro halive
    unfold status isProcessAlive
    rw [hinfo]
    simp [halive]

/-- C1 witness: the dead branch on `deadState` (record kept, `isRunning`
deletes it) and the alive branch on `egState` (pid 7, port 8080, uptime 1s). -/
theorem C1_witness :
    ((status deadState).1 =
      { running := false, pid := none, port := none, uptime := none } ∧
     (status deadState).2 = deadState ∧
     isRunningOp deadState = (false, removePidFile deadState)) ∧
    ((status egState).1 =
      { running := true, pid := some 7, port := some 8080,
        uptime := some (formatUptime (dateMs (JField.str "1000")) 2000) } ∧
     (status egState).2 = egState) :=
  ⟨(C1_amended_status deadState
      { pid := 7, port := 8080, startedAt := JField.str "1000", version := JField.str "1.0" }
      rfl).1 rfl,
   (C1_amended_status egState
      { pid := 7, port := 8080, startedAt := JField.str "1000", version := JField.str "1.0" }
      rfl).2 rfl⟩

/-- Helper: the health loop passes over a block of iterations in which the
process is alive and no probe returns 2xx, provided the elapsed time stays
under the deadline. -/
theorem waitLoop_skip (isWin : Bool) (env : Nat → ProbeStep) (pid port : Int) (T : Nat) :
    ∀ (k n0 e0 : Nat),
      (∀ i, i < k → (env (n0 + i)).alive = true ∧ (env (n0 + i)).fetch ≠ FetchOutcome.ok) →
      e0 + elapsedAt env n0 k < T →
      (waitLoop isWin env pid port T e0 n0).1 =
        (waitLoop isWin env pid port T (e0 + elapsedAt env n0 k) (n0 + k)).1 := by
  intro k
  induction k with
  | zero =>
    intro n0 e0 _ _
    simp [elapsedAt]
  | succ k ih =>
    intro n0 e0 hgood hT
    have h0 := hgood 0 (Nat.succ_pos k)
    simp only [Nat.add_zero] at h0
    have hstep : elapsedAt env n0 (k + 1) =
        (env n0).fetchMs + HEALTH_CHECK_INTERVAL_MS + elapsedAt env (n0 + 1) k := rfl
    have hlt : e0 < T := by
      rw [hstep] at hT; omega
    rw [waitLoop]
    simp only [dif_pos hlt]
    rw [if_neg (by simp [h0.1]), if_neg h0.2]
    have harg1 : e0 + (env n0).fetchMs + HEALTH_CHECK_INTERVAL_MS + elapsedAt env (n0 + 1) k =
        e0 + elapsedAt env n0 (k + 1) := by
      rw [hstep]; ring
    have harg2 : n0 + 1 + k = n0 + (k + 1) := by omega
    have hihgood : ∀ i, i < k →
        (env (n0 + 1 + i)).alive = true ∧ (env (n0 + 1 + i)).fetch ≠ FetchOutcome.ok := by
      intro i hi
      have := hgood (i + 1) (by omega)
      rwa [show n0 + (i + 1) = n0 + 1 + i from by omega] at this
    have hihT : e0 + (env n0).fetchMs + HEALTH_CHECK_INTERVAL_MS + elapsedAt env (n0 + 1) k < T := by
      rw [harg1]; exact hT
    have := ih (n0 + 1) (e0 + (env n0).fetchMs + HEALTH_CHECK_INTERVAL_MS) hihgood hihT
    rw [harg1, harg2] at this
    exact this

/-- Helper: when the process never dies and no probe ever returns 2xx, the
loop runs the clock out and reports the timeout failure. -/
theorem waitLoop_timeout (isWin : Bool) (env : Nat → ProbeStep) (pid port : Int) (T : Nat)
    (hgood : ∀ n, (env n).alive = true ∧ (env n).fetch ≠ FetchOutcome.ok) :
    ∀ (d e n : Nat), T - e ≤ d →
      (waitLoop isWin env pid port T e n).1 =
        { success := false, pid := none, error := some (timeoutMsg isWin port T) } := by
  intro d
  induction d with
  | zero =>
    intro e n hd
    have he : ¬ e < T := by omega
    rw [waitLoop]
    simp [he]
  | succ d ih =>
    intro e n hd
    rw [waitLoop]
    by_cases he : e < T
    · simp only [dif_pos he]
      rw [if_neg (by simp [(hgood n).1]), if_neg (hgood n).2]
      exact ih (e + (env n).fetchMs + HEALTH_CHECK_INTERVAL_MS) (n + 1)
        (by simp only [HEALTH_CHECK_INTERVAL_MS]; omega)
    · simp [he]

/-- Helper: each loop-body iteration advances the clock by at least the 200ms
sleep, so the number of iterations is bounded by the deadline. -/
theorem waitLoop_bound (isWin : Bool) (env : Nat → ProbeStep) (pid port : Int) (T : Nat) :
    ∀ (d e n : Nat), T - e ≤ d →
      HEALTH_CHECK_INTERVAL_MS * (waitLoop isWin env pid port T e n).2 ≤
        (T - e) + HEALTH_CHECK_INTERVAL_MS := by
  intro d
  induction d with
  | zero =>
    intro e n hd
    have he : ¬ e < T := by omega
    rw [waitLoop]
    simp [he]
  | succ d ih =>
    intro e n hd
    rw [waitLoop]
    by_cases he : e < T
    · simp only [dif_pos he]
      by_cases ha : (env n).alive = false
      · simp [ha, HEALTH_CHECK_INTERVAL_MS]
      · rw [if_neg ha]
        by_cases hf : (env n).fetch = FetchOutcome.ok
        · simp [hf, HEALTH_CHECK_INTERVAL_MS]
        · rw [if_neg hf]
          by_cases he2 : e + (env n).fetchMs + HEALTH_CHECK_INTERVAL_MS < T
          · have hrec := ih (e + (env n).fetchMs + HEALTH_CHECK_INTERVAL_MS) (n + 1)
              (by simp only [HEALTH_CHECK_INTERVAL_MS] at hd ⊢; omega)
            simp only [HEALTH_CHECK_INTERVAL_MS] at hrec he2 ⊢
            simp only [Nat.mul_add, Nat.mul_one]
            omega
          · rw [waitLoop]
            simp only [dif_neg he2]
            simp only [HEALTH_CHECK_INTERVAL_MS] at he2 ⊢
            simp
    · simp [he]

/-- C9: the health deadline defaults to 10000ms and is doubled to 20000ms on
Windows; when the deadline elapses with the process alive and no 2xx seen,
`waitForHealth` returns the timeout failure; and the loop is bounded — each
iteration consumes at least the 200ms polling interval, so the iteration
count never exceeds deadline/200 + 1 and the loop cannot run forever. -/
theorem C9_health_deadline :
    HEALTH_CHECK_TIMEOUT_MS = 10000 ∧
    adjustedTimeout true HEALTH_CHECK_TIMEOUT_MS = 20000 ∧
    adjustedTimeout false HEALTH_CHECK_TIMEOUT_MS = 10000 ∧
    (∀ (isWin : Bool) (env : Nat → ProbeStep) (pid port : Int) (timeoutMs : Nat),
      (∀ n, (env n).alive = true ∧ (env n).fetch ≠ FetchOutcome.ok) →
      waitForHealth isWin env pid port timeoutMs =
        { success := false, pid := none,
          error := some (timeoutMsg isWin port (adjustedTimeout isWin timeoutMs)) }) ∧
    (∀ (isWin : Bool) (env : Nat → ProbeStep) (pid port : Int) (T e n : Nat),
      HEALTH_CHECK_INTERVAL_MS * (waitLoop isWin env pid port T e n).2 ≤
        (T - e) + HEALTH_CHECK_INTERVAL_MS) := by
  refine ⟨rfl, rfl, rfl, ?_, ?_⟩
  · intro isWin env pid port timeoutMs hgood
    unfold waitForHealth
    exact waitLoop_timeout isWin env pid port _ hgood _ 0 0 (le_refl _)
  · intro isWin env pid port T e n
    exact waitLoop_bound isWin env pid port T (T - e) e n (le_refl _)

/-- C9 witness: with every probe "not ready yet" and the process alive, a
300ms deadline elapses and the timeout failure is returned. -/
theorem C9_witness :
    waitForHealth false
      (fun _ => { alive := true, fetch := FetchOutcome.netError, fetchMs := 0 })
      1 2 300 =
      { success := false, pid := none, error := some (timeoutMsg false 2 300) } :=
  C9_health_deadline.2.2.2.1 false
    (fun _ => { alive := true, fetch := FetchOutcome.netError, fetchMs := 0 })
    1 2 300 (fun _ => ⟨rfl, fun h => FetchOutcome.noConfusion h⟩)

/-- C6 counterexample: when the process dies before any 2xx, the failure
message is the fixed string "Process died during startup" — it does not name
the dead pid (here 4242), refuting the "naming the dead pid" part of the
claim. -/
theorem C6_counterexample :
    waitForHealth false
      (fun _ => { alive := false, fetch := FetchOutcome.netError, fetchMs := 0 })
      4242 1234 HEALTH_CHECK_TIMEOUT_MS =
      { success := false, pid := none, error := some "Process died during startup" } ∧
    strMentions "Process died during startup" "4242" = false := by
  constructor
  · unfold waitForHealth
    rw [waitLoop]
    norm_num [adjustedTimeout, HEALTH_CHECK_TIMEOUT_MS, deadMsg]
  · decide

/-- C6 (amended): after any block of alive-but-not-ready probes that stays
under the deadline, a dead liveness probe makes `waitForHealth` return
immediately with the fixed process-died diagnostic (which does not include
the pid; on Windows it names the port), and a 2xx probe makes it return
success — connection-refused and per-attempt-timeout probes before it are
"not ready yet", not failure. -/
theorem C6_amended_health (isWin : Bool) (env : Nat → ProbeStep) (pid port : Int)
    (timeoutMs : Nat) (k : Nat)
    (hpre : ∀ i, i < k → (env i).alive = true ∧ (env i).fetch ≠ FetchOutcome.ok)
    (hT : elapsedAt env 0 k < adjustedTimeout isWin timeoutMs) :
    ((env k).alive = false →
      waitForHealth isWin env pid port timeoutMs =
        { success := false, pid := none, error := some (deadMsg isWin port) }) ∧
    ((env k).alive = true → (env k).fetch = FetchOutcome.ok →
      waitForHealth isWin env pid port timeoutMs =
        { success := true, pid := some pid, error := none }) := by
  have hskip := waitLoop_skip isWin env pid port (adjustedTimeout isWin timeoutMs) k 0 0
    (fun i hi => by simpa using hpre i hi) (by simpa using hT)
  have hlt : 0 + elapsedAt env 0 k < adjustedTimeout isWin timeoutMs := by simpa using hT
  constructor
  · intro hdead
    unfold waitForHealth
    rw [hskip, waitLoop]
    simp only [dif_pos hlt]
    simp [Nat.zero_add, hdead]
  · intro halive hok
    unfold waitForHealth
    rw [hskip, waitLoop]
    simp only [dif_pos hlt]
    rw [if_neg (by simp [Nat.zero_add, halive])]
    simp [Nat.zero_add, hok]

/-- C6 witness: two connection-refused probes followed by a 2xx yield
success with the worker pid. -/
theorem C6_witness :
    waitForHealth false
      (fun i => if i < 2 then { alive := true, fetch := FetchOutcome.netError, fetchMs := 0 }
                else { alive := true, fetch := FetchOutcome.ok, fetchMs := 0 })
      9 8080 HEALTH_CHECK_TIMEOUT_MS =
      { success := true, pid := some 9, error := none } :=
  (C6_amended_health false
    (fun i => if i < 2 then { alive := true, fetch := FetchOutcome.netError, fetchMs := 0 }
              else { alive := true, fetch := FetchOutcome.ok, fetchMs := 0 })
    9 8080 HEALTH_CHECK_TIMEOUT_MS 2
    (by decide) (by decide)).2 rfl rfl

/-- Helper: every exit of the health-wait loop is fully populated. -/
theorem waitLoop_wellFormed (isWin : Bool) (env : Nat → ProbeStep) (pid port : Int) (T : Nat) :
    ∀ (d e n : Nat), T - e ≤ d → wellFormedLR (waitLoop isWin env pid port T e n).1 := by
  intro d
  induction d with
  | zero =>
    intro e n hd
    have he : ¬ e < T := by omega
    rw [waitLoop]
    simp [he, wellFormedLR]
  | succ d ih =>
    intro e n hd
    rw [waitLoop]
    by_cases he : e < T
    · simp only [dif_pos he]
      by_cases ha : (env n).alive = false
      · simp [ha, wellFormedLR]
      · rw [if_neg ha]
        by_cases hf : (env n).fetch = FetchOutcome.ok
        · simp [hf, wellFormedLR]
        · rw [if_neg hf]
          have := ih (e + (env n).fetchMs + HEALTH_CHECK_INTERVAL_MS) (n + 1)
            (by simp only [HEALTH_CHECK_INTERVAL_MS] at hd ⊢; omega)
          simpa using this
    · simp [he, wellFormedLR]

/-- Helper: `waitForHealth` always returns a fully populated result. -/
theorem waitForHealth_wellFormed (isWin : Bool) (env : Nat → ProbeStep) (pid port : Int)
    (timeoutMs : Nat) : wellFormedLR (waitForHealth isWin env pid port timeoutMs) :=
  waitLoop_wellFormed isWin env pid port (adjustedTimeout isWin timeoutMs)
    (adjustedTimeout isWin timeoutMs) 0 0 (le_refl _)

/-- Helper: the idempotent-success result formed after a `true` answer from
`isRunning` carries the pid read back from the pid file. -/
theorem runningResult_wellFormed (s : SysState) (h : (isRunningOp s).1 = true) :
    wellFormedLR (runningResult (isRunningOp s).2) := by
  have hsome := isRunningOp_true_getPidInfo s h
  constructor
  · intro _
    rcases Option.isSome_iff_exists.mp hsome with ⟨a, ha⟩
    simp [runningResult, ha]
  · intro hfalse
    simp [runningResult] at hfalse

/-- Helper: every result of `startWithBun` is fully populated. -/
theorem startWithBun_wellFormed (env : StartEnv) (s : SysState) (port : Int) :
    wellFormedLR (startWithBun env s port).1 := by
  unfold startWithBun
  by_cases hb : env.bunAvailable = false
  · simp [hb, bunMissingResult, wellFormedLR]
  · simp only [if_neg hb]
    cases hsp : env.spawn with
    | ok cpid =>
      exact waitForHealth_wellFormed s.isWin env.probes cpid port HEALTH_CHECK_TIMEOUT_MS
    | noPid => simp [noPidResult, wellFormedLR]
    | psFail stderr => simp [wellFormedLR]
    | raised msg => simp [wellFormedLR]

/-- Helper: every result of the locked section of `start` is fully populated. -/
theorem startLocked_wellFormed (env : StartEnv) (s : SysState) (port : Int) :
    wellFormedLR (startLocked env s port).1 := by
  unfold startLocked
  by_cases h1 : (isRunningOp s).1 = true
  · simp only [h1, if_true]
    exact runningResult_wellFormed s h1
  · simp only [Bool.not_eq_true] at h1
    simp only [h1, Bool.false_eq_true, if_false]
    by_cases hs : env.scriptExists = false
    · simp [hs, scriptMissingResult, wellFormedLR]
    · simp only [if_neg hs]
      exact startWithBun_wellFormed env (isRunningOp s).2 port

/-- C5: no `LaunchResult` produced by `start` — on the validation-rejection,
already-running, lock-contention-fallback, spawn-failure, or health-wait
paths — is partially populated: `success = true` implies the `pid` field is
present and `success = false` implies the `error` field is present. -/
theorem C5_launch_result_total (env : StartEnv) (s : SysState) (port : Int) :
    ((start env s port).1.success = true → ((start env s port).1.pid).isSome = true) ∧
    ((start env s port).1.success = false → ((start env s port).1.error).isSome = true) := by
  have main : wellFormedLR (start env s port).1 := by
    unfold start
    by_cases hp : port < 1024 ∨ port > 65535
    · simp [hp, invalidPortResult, wellFormedLR]
    · simp only [if_neg hp]
      by_cases h1 : (isRunningOp s).1 = true
      · simp only [h1, if_true]
        exact runningResult_wellFormed s h1
      · simp only [Bool.not_eq_true] at h1
        simp only [h1, Bool.false_eq_true, if_false]
        by_cases h2 : (acquireLockWithRetry env.interfere (isRunningOp s).2).1 = false
        · simp only [h2, if_true]
          by_cases h4 : (isRunningOp (env.afterWait (acquireLockWithRetry env.interfere (isRunningOp s).2).2)).1 = true
          · simp only [h4, if_true]
            exact runningResult_wellFormed _ h4
          · simp only [Bool.not_eq_true] at h4
            simp only [h4, Bool.false_eq_true, if_false]
            simp [lockFailResult, wellFormedLR]
        · simp only [Bool.not_eq_false] at h2
          simp only [h2, Bool.true_eq_false, if_false]
          exact startLocked_wellFormed env (acquireLockWithRetry env.interfere (isRunningOp s).2).2 port
  exact ⟨main.1, main.2⟩

/-- C5 witness: an invalid port is rejected with `success = false` and a
populated error field. -/
theorem C5_witness :
    ((start idleEnv bareState 100).1.error).isSome = true :=
  (C5_launch_result_total idleEnv bareState 100).2 rfl
